import Mathlib

/-
Verification of libdex/OptInvocation.c (dexopt invocation utilities).

The file embeds the two functions of OptInvocation.c:

  * dexOptGenerateCacheFileName(fileName, subFileName), which builds the
    dalvik-cache file name for a .jar/.dex path, and
  * dexOptCreateEmptyHeader(fd), which writes a skeletal DexOptHeader.

C strings are modelled as `List Char` (no interior NUL bytes arise).  The
external collaborators are passed explicitly: the current working directory
(`cwd : Option CStr`, `none` meaning getcwd fails), the environment and
property values (`DexEnv`), and — because the local `const char* dexRoot`
of the C function is read (compared against NULL) before it is ever
assigned — the indeterminate initial value of that uninitialized local
(`dexRootInit : Option CStr`, `none` meaning the garbage happens to read
as a null pointer).  `strdup` at the end of the C function only fails on
allocation failure, which is outside this model, so the model returns the
string itself.
-/

/-- A C string without interior NUL bytes. -/
abbrev CStr := List Char

/-- kBufLen = sizeof(nameBuf) - 1 = 511 (OptInvocation.c line 52). -/
def kBufLen : Nat := 511

/-- static const char kDexCachePath[] = "dalvik-cache" (line 50). -/
def kDexCachePath : CStr := "dalvik-cache".data

/-- static const char* kClassesDex = "classes.dex" (line 35, unused by the
embedded functions but part of the file). -/
def kClassesDex : CStr := "classes.dex".data

/-- The property value string "1" that asserts a boolean dalvik property. -/
def kOne : CStr := "1".data

/-- strncat(dst, src, n): append at most n characters of src to dst.
(The C call sites pass kBufLen for n on every call, which bounds the
appended source characters, not the total length.) -/
def strncat (dst src : CStr) (n : Nat) : CStr := dst ++ src.take n

/-- fileName[0] == '/' : the test at line 65 deciding whether the input
path is already absolute (an empty string is not absolute: its first byte
is the NUL terminator). -/
def isAbsolute (s : CStr) : Bool :=
  match s with
  | [] => false
  | c :: _ => c == '/'

/-- The body of the flattening loop (lines 93-98): a slash becomes '@',
any other character is untouched. -/
def substCh (ch : Char) : Char := if ch = '/' then '@' else ch

/-- The loop at lines 92-98: leave index 0 alone, replace every later
slash by '@'. -/
def flatten (s : CStr) : CStr :=
  match s with
  | [] => []
  | c :: rest => c :: rest.map substCh

/-- strncmp(s, root, strlen(root)) == 0 (line 122): root is a character
prefix of s. -/
def isPre (root s : CStr) : Bool :=
  match root, s with
  | [], _ => true
  | _ :: _, [] => false
  | p :: ps, c :: cs => p == c && isPre ps cs

/-- getcwd(buf, size) (line 71): succeeds iff the working directory string
(plus its NUL terminator) fits in size bytes; `cwd = none` models getcwd
failing for an external reason. -/
def getcwdResult (cwd : Option CStr) (size : Nat) : Option CStr :=
  match cwd with
  | none => none
  | some c => if c.length + 1 ≤ size then some c else none

/-- Lines 64-87: build `absoluteFile`.  Starting from the empty buffer, a
relative fileName first gets the working directory and a '/' (lines
65-76, `none` when getcwd fails); then fileName is appended (line 77) and,
when subFileName is present, a '/' and subFileName (lines 84-87).  Every
append is a bounded strncat with n = kBufLen. -/
def buildAbsoluteFile (cwd : Option CStr) (fileName : CStr)
    (subFileName : Option CStr) : Option CStr :=
  let start? : Option CStr :=
    if isAbsolute fileName then some []
    else
      match getcwdResult cwd kBufLen with
      | none => none
      | some c => some (strncat c ['/'] kBufLen)
  match start? with
  | none => none
  | some base =>
    let withFile := strncat base fileName kBufLen
    match subFileName with
    | none => some withFile
    | some sub => some (strncat (strncat withFile ['/'] kBufLen) sub kBufLen)

/-- The path-canonicalization stage of dexOptGenerateCacheFileName (lines
64-98): assemble `absoluteFile` and flatten it. -/
def canonicalize (cwd : Option CStr) (fileName : CStr)
    (subFileName : Option CStr) : Option CStr :=
  match buildAbsoluteFile cwd fileName subFileName with
  | none => none
  | some af => some (flatten af)

/-- The environment and property values consulted at lines 104-106, 123 and
130.  A property that is not set reads as the empty string (property_get
with default ""). -/
structure DexEnv where
  androidCache : Option CStr
  androidData : Option CStr
  androidRoot : Option CStr
  dexoptDataOnly : CStr
  dexoptCacheOnly : CStr

/-- cacheRoot = getenv("ANDROID_CACHE") with NULL defaulted to "/cache"
(lines 104, 109-110). -/
def cacheRootOf (env : DexEnv) : CStr := env.androidCache.getD "/cache".data

/-- dataRoot = getenv("ANDROID_DATA") with NULL defaulted to "/data"
(lines 105, 112-113).  Note: the C function never reads this local again
after defaulting it. -/
def dataRootOf (env : DexEnv) : CStr := env.androidData.getD "/data".data

/-- systemRoot = getenv("ANDROID_ROOT") with NULL defaulted to "/system"
(lines 106, 115-116). -/
def systemRootOf (env : DexEnv) : CStr := env.androidRoot.getD "/system".data

/-- Lines 118-119: `if (dexRoot == NULL) dexRoot = "/data";`.  dexRoot was
never assigned before this point, so the value tested is the indeterminate
initial content of the local; only when that garbage reads as NULL is the
hard-coded literal "/data" (not dataRoot) installed. -/
def dexRootAfterDefault (dexRootInit : Option CStr) : CStr :=
  match dexRootInit with
  | none => "/data".data
  | some s => s

/-- Lines 118-133: the cache-root selection.  After the conditional default,
a flattened file that systemRoot is a prefix of moves to cacheRoot unless
dalvik.vm.dexopt-data-only is "1" (lines 122-127), and then
dalvik.vm.dexopt-cache-only = "1" forces cacheRoot unconditionally (lines
130-133). -/
def selectDexRoot (dexRootInit : Option CStr)
    (absoluteFile systemRoot cacheRoot : CStr)
    (dexoptDataOnly dexoptCacheOnly : CStr) : CStr :=
  let r0 := dexRootAfterDefault dexRootInit
  let r1 :=
    if isPre systemRoot absoluteFile then
      if dexoptDataOnly = kOne then r0 else cacheRoot
    else r0
  if dexoptCacheOnly = kOne then cacheRoot else r1

/-- snprintf(nameBuf, kBufLen, "%s/%s", root, sub) (line 135): the formatted
string truncated to kBufLen - 1 characters (the size argument counts the
NUL terminator). -/
def snprintfRootCache (size : Nat) (root sub : CStr) : CStr :=
  (root ++ '/' :: sub).take (size - 1)

/-- dexOptGenerateCacheFileName (lines 47-143).  `none` is the NULL return
of the getcwd failure branch (line 73); the final strdup (line 142) is
modelled as the identity, allocation failure being outside the model. -/
def dexOptGenerateCacheFileName (env : DexEnv) (cwd dexRootInit : Option CStr)
    (fileName : CStr) (subFileName : Option CStr) : Option CStr :=
  match buildAbsoluteFile cwd fileName subFileName with
  | none => none
  | some af =>
    let absoluteFile := flatten af
    let dexRoot := selectDexRoot dexRootInit absoluteFile
      (systemRootOf env) (cacheRootOf env) env.dexoptDataOnly env.dexoptCacheOnly
    let nameBuf := snprintfRootCache kBufLen dexRoot kDexCachePath
    some (strncat nameBuf absoluteFile kBufLen)

/-- Modelled from the spec: the DexOptHeader record is declared in
libdex/DexFile.h, which is not among the sources here.  The spec describes
it as a fixed-size binary record whose total size is a multiple of 8 bytes,
with a single meaningful field `payloadOffset` (called dexOffset in the
code) at a stable byte position.  We model the known layout: an 8-byte
magic followed by eight 32-bit little-endian words, dexOffset being the
first word, so the record is 40 bytes and dexOffset occupies bytes 8-11. -/
def sizeofDexOptHeader : Nat := 40

/-- Modelled from the spec: byte offset of the dexOffset (payloadOffset)
field inside the DexOptHeader record. -/
def dexOffsetByteOff : Nat := 8

/-- Store a 32-bit little-endian value into a byte buffer at `pos`. -/
def storeLE32 (buf : List Nat) (pos v : Nat) : List Nat :=
  ((((buf.set pos (v % 256)).set (pos + 1) (v / 256 % 256)).set
      (pos + 2) (v / 65536 % 256)).set (pos + 3) (v / 16777216 % 256))

/-- Read a 32-bit little-endian value from a byte buffer at `pos`. -/
def readLE32 (buf : List Nat) (pos : Nat) : Nat :=
  buf.getD pos 0 + 256 * buf.getD (pos + 1) 0 +
    65536 * buf.getD (pos + 2) 0 + 16777216 * buf.getD (pos + 3) 0

/-- Lines 170-171: memset(&optHdr, 0xff, sizeof(optHdr)) followed by
optHdr.dexOffset = sizeof(optHdr).  This is the byte image handed to the
single write(2) call at line 172. -/
def dexOptHeaderBytes : List Nat :=
  storeLE32 (List.replicate sizeofDexOptHeader 0xff)
    dexOffsetByteOff sizeofDexOptHeader

/-- The return value of dexOptCreateEmptyHeader (lines 172-179) as a
function of what write(2) returned (`actual`) and the current errno:
`if (actual != sizeof(optHdr)) { int err = errno ? errno : -1; ...
return errno; } return 0;`.  Note that the code returns `errno`, not the
computed `err`. -/
def dexOptCreateEmptyHeader (actual errnoVal : Int) : Int :=
  if actual ≠ (sizeofDexOptHeader : Int) then errnoVal else 0

/-- Line 174: the value `int err = errno ? errno : -1;` that the failure
branch computes (and then never returns). -/
def shortWriteErr (errnoVal : Int) : Int :=
  if errnoVal ≠ 0 then errnoVal else -1

/-- The default environment: no ANDROID_* variables set, both dalvik
properties unset (empty). -/
def env0 : DexEnv := ⟨none, none, none, [], []⟩

/-- Appending on the right keeps a slash-headed list slash-headed; a bounded
append into the empty buffer of a slash-headed source with a positive bound
produces a slash-headed list. -/
lemma take_pos_cons (c : Char) (t : CStr) (n : Nat) (h : 0 < n) :
    (c :: t).take n = c :: t.take (n - 1) := by
  cases n with
  | zero => exact absurd h (lt_irrefl 0)
  | succ m => simp [List.take_succ_cons]

lemma strncat_headSlash (base src : CStr) (n : Nat)
    (h : (∃ t, base = '/' :: t) ∨ (base = [] ∧ 0 < n ∧ ∃ t, src = '/' :: t)) :
    ∃ t, strncat base src n = '/' :: t := by
  rcases h with ⟨t, rfl⟩ | ⟨rfl, hn, t, rfl⟩
  · exact ⟨t ++ src.take n, rfl⟩
  · rw [strncat, List.nil_append, take_pos_cons _ _ _ hn]
    exact ⟨t.take (n - 1), rfl⟩

lemma isAbsolute_shape (s : CStr) (h : isAbsolute s = true) :
    ∃ t, s = '/' :: t := by
  cases s with
  | nil => simp [isAbsolute] at h
  | cons c t =>
    have hc : c = '/' := by simpa [isAbsolute] using h
    exact ⟨t, by rw [hc]⟩

lemma getcwdResult_eq_some (cwd : Option CStr) (size : Nat) (c : CStr)
    (h : getcwdResult cwd size = some c) : cwd = some c := by
  cases cwd with
  | none => simp [getcwdResult] at h
  | some c0 =>
    simp only [getcwdResult] at h
    split at h
    · exact h
    · cases h

/-- Whatever `absoluteFile` the assembly stage produces begins with a slash,
provided getcwd only ever reports absolute working directories. -/
lemma buildAbsoluteFile_shape (cwd : Option CStr) (fileName : CStr)
    (sub : Option CStr) (af : CStr)
    (hcwd : ∀ c, cwd = some c → isAbsolute c = true)
    (h : buildAbsoluteFile cwd fileName sub = some af) :
    ∃ t, af = '/' :: t := by
  have hbase : ∀ base, (∃ t, base = '/' :: t) ∨
      (base = [] ∧ isAbsolute fileName = true) →
      ∀ af2, (match sub with
        | none => some (strncat base fileName kBufLen)
        | some s =>
            some (strncat (strncat (strncat base fileName kBufLen) ['/'] kBufLen)
              s kBufLen)) = some af2 → ∃ t, af2 = '/' :: t := by
    intro base hb af2 h2
    have hw : ∃ t, strncat base fileName kBufLen = '/' :: t := by
      rcases hb with hb | ⟨rfl, habs⟩
      · exact strncat_headSlash _ _ _ (Or.inl hb)
      · obtain ⟨t, ht⟩ := isAbsolute_shape _ habs
        exact strncat_headSlash _ _ _ (Or.inr ⟨rfl, by norm_num [kBufLen], t, ht⟩)
    cases sub with
    | none =>
      obtain ⟨t, ht⟩ := hw
      obtain rfl : _ = af2 := Option.some.inj h2
      exact ⟨t, ht⟩
    | some s =>
      obtain rfl : _ = af2 := Option.some.inj h2
      exact strncat_headSlash _ _ _
        (Or.inl (strncat_headSlash _ _ _ (Or.inl hw)))
  cases habs : isAbsolute fileName with
  | true =>
    refine hbase [] (Or.inr ⟨rfl, habs⟩) af ?_
    simpa only [buildAbsoluteFile, habs, if_true] using h
  | false =>
    cases hcw : getcwdResult cwd kBufLen with
    | none =>
      exfalso
      simp [buildAbsoluteFile, habs, hcw] at h
    | some c =>
      obtain ⟨ct, hct⟩ := isAbsolute_shape c (hcwd c (getcwdResult_eq_some _ _ _ hcw))
      refine hbase (strncat c ['/'] kBufLen)
        (Or.inl (strncat_headSlash _ _ _ (Or.inl ⟨ct, hct⟩))) af ?_
      simpa only [buildAbsoluteFile, habs, hcw, if_false] using h

/-- The substitute character is never the separator, so the flattened tail
is separator-free. -/
lemma substCh_ne_slash (ch : Char) : substCh ch ≠ '/' := by
  unfold substCh
  split
  · decide
  · assumption

lemma slash_not_mem_map_substCh (t : CStr) : '/' ∉ t.map substCh := by
  intro hm
  rcases List.mem_map.mp hm with ⟨a, _, ha⟩
  exact substCh_ne_slash a ha

lemma map_substCh_id (t : CStr) (h : '/' ∉ t) : t.map substCh = t := by
  induction t with
  | nil => rfl
  | cons c cs ih =>
    rw [List.mem_cons, not_or] at h
    have hc : substCh c = c := by
      unfold substCh
      exact if_neg (fun e => h.1 e.symm)
    rw [List.map_cons, hc, ih h.2]

/-- Normal form of canonicalize on an absolute input with no entry name. -/
lemma canonicalize_abs_none (P : CStr) (h : isAbsolute P = true) :
    canonicalize none P none = some (flatten (P.take kBufLen)) := by
  simp [canonicalize, buildAbsoluteFile, h, strncat]

/-- Claim C1: the code does not satisfy the claim.  A write(2) that
transfers 20 of the 40 header bytes while errno is 0 (a partial write does
not set errno) makes dexOptCreateEmptyHeader return 0 — the success value —
because the failure branch returns `errno` rather than the
`err = errno ? errno : -1` it computes.  The claim (and the dead local)
demand the generic failure -1 here. -/
theorem C1_short_write_returns_success :
    (20 : Int) ≠ (sizeofDexOptHeader : Int) ∧
    dexOptCreateEmptyHeader 20 0 = 0 ∧
    shortWriteErr 0 = -1 := by decide

/-- Claim C2: the code does not satisfy the claim.  dexRoot is read
(compared against NULL, line 118) before any assignment, and the default
is installed only when the indeterminate value happens to read as NULL, so
the function's result depends on the garbage: with garbage "/bogus" the
cache path is rooted at "/bogus", with a NULL-reading garbage at the
literal "/data". -/
theorem C2_dexRoot_read_before_assignment :
    dexRootAfterDefault none = "/data".data ∧
    dexRootAfterDefault (some "/bogus".data) = "/bogus".data ∧
    dexOptGenerateCacheFileName env0 none (some "/bogus".data)
        "/x.dex".data none = some "/bogus/dalvik-cache/x.dex".data ∧
    dexOptGenerateCacheFileName env0 none none "/x.dex".data none
        = some "/data/dalvik-cache/x.dex".data := by decide

set_option maxRecDepth 4000 in
/-- Claim C3 counterexample: an absolute input of 601 characters exceeds the
511-character bound, yet canonicalize succeeds and returns the silently
truncated 511-character path instead of failing with a BufferOverflow
error. -/
theorem C3_counterexample :
    kBufLen < ('/' :: List.replicate 600 'a').length ∧
    canonicalize none ('/' :: List.replicate 600 'a') none
      = some ('/' :: List.replicate 510 'a') ∧
    ('/' :: List.replicate 510 'a') ≠ ('/' :: List.replicate 600 'a') := by
  decide

/-- Claim C3 as amended: canonicalize never reports an overflow.  On any
absolute input it succeeds, and its result only depends on the first
kBufLen characters of the input — the bounded concatenation silently
truncates, so inputs agreeing on their first 511 characters collide on the
same cache key. -/
theorem C3_amended_silent_truncation (P : CStr) (h : isAbsolute P = true) :
    canonicalize none P none = canonicalize none (P.take kBufLen) none ∧
    (canonicalize none P none).isSome = true := by
  have h2 : isAbsolute (P.take kBufLen) = true := by
    obtain ⟨t, rfl⟩ := isAbsolute_shape _ h
    rw [take_pos_cons _ _ _ (by norm_num [kBufLen])]
    rfl
  constructor
  · rw [canonicalize_abs_none P h, canonicalize_abs_none _ h2,
      List.take_take, min_self]
  · rw [canonicalize_abs_none P h]
    rfl

/-- Claim C3 witness: instantiating the amended theorem at a 512-character
absolute input. -/
theorem C3_witness :
    (canonicalize none ('/' :: List.replicate 511 'c') none
      = canonicalize none (('/' :: List.replicate 511 'c').take kBufLen) none) ∧
    (canonicalize none ('/' :: List.replicate 511 'c') none).isSome = true :=
  C3_amended_silent_truncation ('/' :: List.replicate 511 'c') (by decide)

/-- Claim C4: the code does not satisfy the claim.  With ANDROID_DATA set
to "/mydata" (so dataRoot = "/mydata"), a path not prefixed by systemRoot
and both flags unset, the selected root is the hard-coded literal "/data"
installed at line 119 (when the uninitialized dexRoot reads as NULL), not
the configured dataRoot. -/
theorem C4_hardcoded_literal_not_dataRoot :
    dataRootOf ⟨none, some "/mydata".data, none, [], []⟩ = "/mydata".data ∧
    selectDexRoot none "/foo.dex".data "/system".data "/cache".data [] []
      = "/data".data ∧
    dexOptGenerateCacheFileName ⟨none, some "/mydata".data, none, [], []⟩
        none none "/foo.dex".data none
      = some "/data/dalvik-cache/foo.dex".data ∧
    "/data".data ≠ "/mydata".data := by decide

/-- Claim C5: whenever dalvik.vm.dexopt-cache-only reads "1", the selected
root is cacheRoot, for every flattened path, every data-only value and
every initial dexRoot garbage — the cache-only override is the last
assignment and is unconditional. -/
theorem C5_cacheOnly_forces_cacheRoot (dexRootInit : Option CStr)
    (absoluteFile systemRoot cacheRoot dataOnly cacheOnly : CStr)
    (h : cacheOnly = kOne) :
    selectDexRoot dexRootInit absoluteFile systemRoot cacheRoot
      dataOnly cacheOnly = cacheRoot := by
  simp [selectDexRoot, h]

/-- Claim C5 witness: both flags asserted at once on a system-prefixed
path with garbage in dexRoot — cache-only still wins. -/
theorem C5_witness :
    selectDexRoot (some "/garbage".data) "/system@app@bar.apk".data
      "/system".data "/cache".data kOne kOne = "/cache".data :=
  C5_cacheOnly_forces_cacheRoot _ _ _ _ _ _ rfl

/-- Claim C6: whenever canonicalize succeeds (getcwd reporting only
absolute working directories, as POSIX guarantees), the result starts with
the separator and contains no other separator. -/
theorem C6_result_separator_shape (cwd : Option CStr) (fileName : CStr)
    (sub : Option CStr) (res : CStr)
    (hcwd : ∀ c, cwd = some c → isAbsolute c = true)
    (h : canonicalize cwd fileName sub = some res) :
    res.head? = some '/' ∧ '/' ∉ res.tail := by
  obtain ⟨af, haf, hres⟩ : ∃ af, buildAbsoluteFile cwd fileName sub = some af ∧
      res = flatten af := by
    cases hb : buildAbsoluteFile cwd fileName sub with
    | none =>
      exfalso
      simp [canonicalize, hb] at h
    | some af =>
      simp only [canonicalize, hb, Option.some.injEq] at h
      exact ⟨af, rfl, h.symm⟩
  obtain ⟨t, rfl⟩ := buildAbsoluteFile_shape cwd fileName sub af hcwd haf
  subst hres
  exact ⟨rfl, slash_not_mem_map_substCh t⟩

/-- Claim C6 witness: the shape theorem instantiated on a relative input
resolved against working directory "/home/user" with an entry name, where
canonicalize yields "/home@user@rel.jar@classes.dex". -/
theorem C6_witness :
    ("/home@user@rel.jar@classes.dex".data).head? = some '/' ∧
    '/' ∉ ("/home@user@rel.jar@classes.dex".data).tail :=
  C6_result_separator_shape (some "/home/user".data) "rel.jar".data
    (some "classes.dex".data) "/home@user@rel.jar@classes.dex".data
    (fun c hc => by cases hc; decide) (by decide)

set_option maxRecDepth 4000 in
/-- Claim C7 counterexample: an absolute path of 521 characters whose only
separator is the leading one is not returned unchanged — the bounded
concatenation cuts it to 511 characters. -/
theorem C7_counterexample :
    isAbsolute ('/' :: List.replicate 520 'b') = true ∧
    '/' ∉ ('/' :: List.replicate 520 'b').tail ∧
    canonicalize none ('/' :: List.replicate 520 'b') none
      ≠ some ('/' :: List.replicate 520 'b') := by decide

/-- Claim C7 as amended: for every absolute path P whose only separator is
the leading one and whose length does not exceed kBufLen = 511,
canonicalize(P, none) returns P unchanged. -/
theorem C7_flat_absolute_identity (P : CStr) (h1 : isAbsolute P = true)
    (h2 : '/' ∉ P.tail) (h3 : P.length ≤ kBufLen) :
    canonicalize none P none = some P := by
  rw [canonicalize_abs_none P h1, List.take_of_length_le h3]
  obtain ⟨t, rfl⟩ := isAbsolute_shape _ h1
  rw [List.tail_cons] at h2
  show some ('/' :: t.map substCh) = some ('/' :: t)
  rw [map_substCh_id t h2]

/-- Claim C7 witness: the amended identity at "/abc.dex". -/
theorem C7_witness :
    canonicalize none "/abc.dex".data none = some "/abc.dex".data :=
  C7_flat_absolute_identity "/abc.dex".data (by decide) (by decide) (by decide)

/-- Claim C8: the header stub written by the single write(2) call is 40
bytes — a multiple of 8 — every byte 0xff except the dexOffset field at
bytes 8-11, which holds (little-endian) the header size 40; and when the
write transfers the full record the function returns 0.  (Record layout
modelled from the spec, DexFile.h not being among the sources.) -/
theorem C8_empty_header_contents :
    dexOptHeaderBytes.length = sizeofDexOptHeader ∧
    sizeofDexOptHeader % 8 = 0 ∧
    readLE32 dexOptHeaderBytes dexOffsetByteOff = sizeofDexOptHeader ∧
    (∀ i, i < sizeofDexOptHeader →
      (i < dexOffsetByteOff ∨ dexOffsetByteOff + 4 ≤ i) →
      dexOptHeaderBytes.getD i 0 = 0xff) ∧
    (∀ e : Int, dexOptCreateEmptyHeader (sizeofDexOptHeader : Int) e = 0) :=
  ⟨by decide, by decide, by decide, by decide,
    fun e => if_neg (fun hne => hne rfl)⟩

/-- Claim C9: the end-to-end scenario for /data/app/foo.apk with entry
classes.dex.  The flattened path is as claimed, and the claimed final path
/data/dalvik-cache/data@app@foo.apk@classes.dex is produced exactly when
the uninitialized dexRoot happens to read as NULL; garbage reading as
"/junk" roots the result at /junk instead. -/
theorem C9_scenario_depends_on_garbage :
    canonicalize none "/data/app/foo.apk".data (some "classes.dex".data)
      = some "/data@app@foo.apk@classes.dex".data ∧
    dexOptGenerateCacheFileName env0 none none "/data/app/foo.apk".data
        (some "classes.dex".data)
      = some "/data/dalvik-cache/data@app@foo.apk@classes.dex".data ∧
    dexOptGenerateCacheFileName env0 none (some "/junk".data)
        "/data/app/foo.apk".data (some "classes.dex".data)
      = some "/junk/dalvik-cache/data@app@foo.apk@classes.dex".data := by
  decide

/-- Claim C10: on an absolute input the working directory is never
consulted — the result is the same for any cwd value (including a failing
getcwd) — and the function succeeds (the final strdup, i.e. allocation, is
outside the model). -/
theorem C10_absolute_input_ignores_cwd (env : DexEnv)
    (cwd cwd2 dexRootInit : Option CStr) (fileName : CStr) (sub : Option CStr)
    (h : isAbsolute fileName = true) :
    dexOptGenerateCacheFileName env cwd dexRootInit fileName sub
      = dexOptGenerateCacheFileName env cwd2 dexRootInit fileName sub ∧
    (dexOptGenerateCacheFileName env cwd dexRootInit fileName sub).isSome
      = true := by
  cases sub <;> simp [dexOptGenerateCacheFileName, buildAbsoluteFile, h]

/-- Claim C10 witness: "/w.dex" gives the same result whether getcwd would
fail or report "/home/user". -/
theorem C10_witness :
    (dexOptGenerateCacheFileName env0 none none "/w.dex".data none
      = dexOptGenerateCacheFileName env0 (some "/home/user".data) none
          "/w.dex".data none) ∧
    (dexOptGenerateCacheFileName env0 none none "/w.dex".data none).isSome
      = true :=
  C10_absolute_input_ignores_cwd env0 none (some "/home/user".data) none
    "/w.dex".data none (by decide)
